import Mathlib

/-!
Shallow embedding of `slog.go` from the sellsuki-go-logger repository.

Modelling conventions:
* Go `string` is Lean `String`; Go `int` / `int64` / `int8` are `Int`; the byte
  length of a Go string is `String.length` cast to `Int` where the source
  compares it against an `int` configuration value.  The `float64` duration
  fields are abstracted as integer-valued quantities (no claim depends on
  them), and `time.Time` is abstracted as an integer instant.
* A Go `map[string]T` argument is `Option (List (String × T))`: `none` is the
  nil map, `some m` a non-nil map given by its key/value pairs.  The payload
  map `map[string]interface{}` built by the emission methods is a key-unique
  association list manipulated through `upsert` / `lookupKey`, which reproduce
  Go map assignment (overwrite on existing key) and lookup.
* A `*zap.Logger` sink handle is identified by a `Nat` id; the outcome of
  `config.Build` is passed to the embedded function as an `Except String Nat`
  (`.ok id` for a freshly built sink, `.error e` for a construction error).
* The heterogeneous variadic `args ...interface{}` of the emission methods is
  the inductive `Arg`: the three runtime types the source inspects with type
  assertions (`TraceInfo`, `LogField`, `LogOption`) plus `other` for a value
  of any different dynamic type, which every loop in the source ignores.
* Emission is modelled by returning the `Record` handed to the zap sink
  (message, severity of the zap method invoked, and the five fields built by
  the source) instead of performing I/O.
-/

namespace Slog

/-- Log severity constant from slog.go (`LevelDebug LogLevel = -1`); the
values coincide with zapcore's level numbering. -/
def LevelDebug : Int := -1

/-- Log severity constant from slog.go (`LevelInfo LogLevel = 0`). -/
def LevelInfo : Int := 0

/-- Log severity constant from slog.go (`LevelWarn LogLevel = 1`). -/
def LevelWarn : Int := 1

/-- Log severity constant from slog.go (`LevelError LogLevel = 2`). -/
def LevelError : Int := 2

/-- Log severity constant from slog.go (`LevelPanic LogLevel = 4`). -/
def LevelPanic : Int := 4

/-- Log severity constant from slog.go (`LevelFatal LogLevel = 5`). -/
def LevelFatal : Int := 5

/-- Alert level constant from slog.go (`LevelNone AlertLevel = 0`). -/
def LevelNone : Int := 0

/-- Alert level constant from slog.go (`LevelAlert AlertLevel = 1`). -/
def LevelAlert : Int := 1

/-- Configuration options (the `Config` struct of slog.go). -/
structure Config where
  LogLevel : Int
  AppName : String
  Version : String
  MaxBodySize : Int
deriving DecidableEq

/-- Models a Go `interface{}` value carried in a `LogField.Value`: either a
value implementing the `error` interface (abstracted by its message string) or
any other value (abstracted by its rendering). -/
inductive GoValue
  | errVal (msg : String)
  | strVal (s : String)
deriving DecidableEq

/-- The `LogField` struct of slog.go: a single named field. -/
structure LogField where
  Key : String
  Value : GoValue
deriving DecidableEq

/-- The `LogOption` struct of slog.go. -/
structure LogOption where
  Alert : Int
deriving DecidableEq

/-- The `TraceInfo` struct of slog.go. -/
structure TraceInfo where
  TraceID : String
  SpanID : String
  RequestID : String
deriving DecidableEq

/-- The `ErrorInfo` struct of slog.go. -/
structure ErrorInfo where
  Name : String
  StackTrace : String
deriving DecidableEq

/-- The `HTTPRequestInfo` struct of slog.go; the three maps are `none` when
the corresponding Go map is nil. -/
structure HTTPRequestInfo where
  Method : String
  Path : String
  RemoteIP : String
  Headers : Option (List (String × String))
  Params : Option (List (String × String))
  Query : Option (List (String × String))
  Body : String
deriving DecidableEq

/-- The `HTTPResponseInfo` struct of slog.go (float64 duration abstracted as
an integer-valued quantity). -/
structure HTTPResponseInfo where
  Status : Int
  Duration : Int
  Body : String
  Error : ErrorInfo
deriving DecidableEq

/-- The `KafkaMessage` struct of slog.go (`time.Time` abstracted as an
integer instant). -/
structure KafkaMessage where
  Topic : String
  Partition : Int
  Offset : Int
  Headers : Option (List (String × String))
  Key : String
  Payload : String
  Timestamp : Int
deriving DecidableEq

/-- The `KafkaResult` struct of slog.go. -/
structure KafkaResult where
  Duration : Int
  Error : ErrorInfo
deriving DecidableEq

/-- Go `type EventAction string`. -/
abbrev EventAction := String

/-- Go `type EventResult string`. -/
abbrev EventResult := String

/-- Event action constant `ActionCreate`. -/
def ActionCreate : EventAction := "create"

/-- Event action constant `ActionUpdate`. -/
def ActionUpdate : EventAction := "update"

/-- Event action constant `ActionDelete`. -/
def ActionDelete : EventAction := "delete"

/-- Event result constant `ResultSuccess`. -/
def ResultSuccess : EventResult := "success"

/-- Event result constant `ResultCompensate`. -/
def ResultCompensate : EventResult := "compensate"

/-- The `EventLog` struct of slog.go. -/
structure EventLog where
  Entity : String
  Action : EventAction
  Result : EventResult
  ReferenceID : String
  Data : String
deriving DecidableEq

/-- Models the `data interface{}` argument of `WithEvent`: nil, a string, or
a value of any other dynamic type together with the outcome of running
`json.Marshal` on it (`some s` renders to `s`; `none` is a marshal error). -/
inductive EventData
  | nilData
  | strData (s : String)
  | otherData (marshalResult : Option String)
deriving DecidableEq

/-- The `SukiLogger` struct of slog.go: the configuration and the zap sink
handle (`none` models a nil `*zap.Logger`). -/
structure SukiLogger where
  config : Config
  zapInstance : Option Nat
deriving DecidableEq

/-- Association-list lookup modelling a Go map read: the first entry with the
given key, if any. -/
def lookupKey {β : Type} (m : List (String × β)) (k : String) : Option β :=
  match m with
  | [] => none
  | p :: rest => if p.1 = k then some p.2 else lookupKey rest k

/-- Removes every entry with the given key; used to keep the association list
key-unique under `upsert`. -/
def eraseKey {β : Type} (m : List (String × β)) (k : String) : List (String × β) :=
  match m with
  | [] => []
  | p :: rest => if p.1 = k then eraseKey rest k else p :: eraseKey rest k

/-- Association-list update modelling a Go map assignment `m[k] = v`:
overwrites any existing entry for `k`. -/
def upsert {β : Type} (m : List (String × β)) (k : String) (v : β) : List (String × β) :=
  (k, v) :: eraseKey m k

/-- Function `Any` of slog.go. -/
def Any (key : String) (value : GoValue) : LogField :=
  { Key := key, Value := value }

/-- Function `Error` of slog.go: the error argument is `some msg` for a
non-nil error with message `msg`, `none` for a nil error.  Both branches store
a plain string value under the key "error". -/
def Error (err : Option String) : LogField :=
  match err with
  | some msg => Any "error" (GoValue.strVal msg)
  | none => Any "error" (GoValue.strVal "")

/-- Function `WithTracing` of slog.go; the variadic `requestID` is a list and
only its first element is used. -/
def WithTracing (traceID : String) (spanID : String) (requestID : List String) : TraceInfo :=
  { TraceID := traceID, SpanID := spanID,
    RequestID := if requestID.length > 0 then requestID.getD 0 "" else "" }

/-- Function `WithOption` of slog.go: identity passthrough. -/
def WithOption (opts : LogOption) : LogOption :=
  opts

/-- Function `WithEvent` of slog.go: nil data gives an empty payload, string
data is used verbatim, and any other data is serialized with `json.Marshal`
whose error leaves the payload empty. -/
def WithEvent (entity : String) (action : EventAction) (result : EventResult)
    (data : EventData) (refID : String) : EventLog :=
  { Entity := entity, Action := action, Result := result, ReferenceID := refID,
    Data :=
      match data with
      | .nilData => ""
      | .strData str => str
      | .otherData r =>
        match r with
        | some s => s
        | none => "" }

/-- Function `WithHTTPRequest` of slog.go: a nil headers/params/query map is
replaced by an empty non-nil map. -/
def WithHTTPRequest (method : String) (path : String) (remoteIP : String)
    (headers : Option (List (String × String)))
    (params : Option (List (String × String)))
    (query : Option (List (String × String)))
    (body : String) : HTTPRequestInfo :=
  { Method := method, Path := path, RemoteIP := remoteIP,
    Headers := match headers with | none => some [] | some m => some m,
    Params := match params with | none => some [] | some m => some m,
    Query := match query with | none => some [] | some m => some m,
    Body := body }

/-- Function `WithError` of slog.go: the trace is stacktrace[0] when exactly
one variadic value is given, stacktrace[1] when more than one is given, and
empty otherwise. -/
def WithError (name : String) (stacktrace : List String) : ErrorInfo :=
  { Name := name,
    StackTrace :=
      if stacktrace.length = 1 then stacktrace.getD 0 ""
      else if stacktrace.length > 1 then stacktrace.getD 1 ""
      else "" }

/-- Function `WithHTTPResponse` of slog.go: the variadic error defaults to
the zero-value `ErrorInfo`. -/
def WithHTTPResponse (status : Int) (duration : Int) (body : String)
    (error : List ErrorInfo) : HTTPResponseInfo :=
  { Status := status, Duration := duration, Body := body,
    Error := if error.length > 0 then error.getD 0 ⟨"", ""⟩ else ⟨"", ""⟩ }

/-- Function `WithKafkaMessage` of slog.go: a nil headers map is replaced by
an empty non-nil map. -/
def WithKafkaMessage (topic : String) (partition : Int) (offset : Int)
    (headers : Option (List (String × String)))
    (key : String) (payload : String) (timestamp : Int) : KafkaMessage :=
  { Topic := topic, Partition := partition, Offset := offset,
    Headers := match headers with | none => some [] | some m => some m,
    Key := key, Payload := payload, Timestamp := timestamp }

/-- Function `WithKafkaResult` of slog.go. -/
def WithKafkaResult (duration : Int) (error : List ErrorInfo) : KafkaResult :=
  { Duration := duration,
    Error := if error.length > 0 then error.getD 0 ⟨"", ""⟩ else ⟨"", ""⟩ }

/-- One element of the variadic `args ...interface{}` list of the emission
methods: the three dynamic types the source's type assertions look for, plus
`other` for a value of any unrecognized dynamic type. -/
inductive Arg
  | tracing (t : TraceInfo)
  | field (f : LogField)
  | option (o : LogOption)
  | other
deriving DecidableEq

/-- A value stored in the `data` payload map handed to the zap sink. -/
inductive DataValue
  | trace (t : TraceInfo)
  | table (kvs : List (String × GoValue))
  | httpReq (r : HTTPRequestInfo)
  | httpResp (r : HTTPResponseInfo)
  | kafkaMsg (m : KafkaMessage)
  | kafkaRes (r : KafkaResult)
  | event (e : EventLog)
deriving DecidableEq

/-- The value stored for a `LogField` by `appLogBuilder`: an error-typed value
is reduced to its message string, any other value is stored as is. -/
def renderFieldValue : GoValue → GoValue
  | .errVal msg => .strVal msg
  | v => v

/-- Loop state of the variadic scan in `appLogBuilder`: the `data` payload
map, the `appData` key/value sub-map, and the running alert level. -/
structure ComposeState where
  data : List (String × DataValue)
  appData : List (String × GoValue)
  alertLevel : Int
deriving DecidableEq

/-- One iteration of the `for i := range args` loop of `appLogBuilder`:
a `TraceInfo` is stored verbatim under "tracing", a `LogField` is merged into
`appData` (errors stringified), a `LogOption` overwrites the alert level, and
anything else is ignored. -/
def composeStep (st : ComposeState) (a : Arg) : ComposeState :=
  match a with
  | .tracing t => { st with data := upsert st.data "tracing" (DataValue.trace t) }
  | .field f => { st with appData := upsert st.appData f.Key (renderFieldValue f.Value) }
  | .option o => { st with alertLevel := o.Alert }
  | .other => st

/-- Loop state of the variadic scan shared by `RequestHTTP`, `RequestKafka`
and `Event`. -/
structure ReqState where
  data : List (String × DataValue)
  alertLevel : Int
deriving DecidableEq

/-- One iteration of the `for i := range args` loop of `RequestHTTP`,
`RequestKafka` and `Event`: a `TraceInfo` is stored under "tracing" with only
TraceID and SpanID copied (RequestID left at its zero value), a `LogOption`
overwrites the alert level, and anything else (including a `LogField`) is
ignored. -/
def requestStep (st : ReqState) (a : Arg) : ReqState :=
  match a with
  | .tracing t =>
    { st with data := upsert st.data "tracing" (DataValue.trace ⟨t.TraceID, t.SpanID, ""⟩) }
  | .option o => { st with alertLevel := o.Alert }
  | _ => st

/-- The ordered zap fields built by `appLogBuilder` (app_name, version,
log_type, alert, data). -/
structure ZapFields where
  app_name : String
  version : String
  log_type : String
  alert : Int
  data : List (String × DataValue)
deriving DecidableEq

/-- Method `appLogBuilder` of slog.go: scans the variadic args, and when the
`appData` sub-map is non-empty stores it in `data` under the application name
(or the fallback key "payload" when the application name is empty). -/
def SukiLogger.appLogBuilder (s : SukiLogger) (args : List Arg) : ZapFields :=
  let appKey := if s.config.AppName.length ≤ 0 then "payload" else s.config.AppName
  let st := args.foldl composeStep { data := [], appData := [], alertLevel := LevelNone }
  let data := if st.appData.length > 0 then upsert st.data appKey (DataValue.table st.appData) else st.data
  { app_name := s.config.AppName, version := s.config.Version, log_type := "application",
    alert := st.alertLevel, data := data }

/-- One record handed to the zap sink: the message, the severity of the zap
method that was invoked, and the five fields built by the source. -/
structure Record where
  message : String
  level : Int
  app_name : String
  version : String
  log_type : String
  alert : Int
  data : List (String × DataValue)
deriving DecidableEq

/-- Shared shape of the six leveled emission methods: hand the message and
the fields built by `appLogBuilder` to the sink at the given severity. -/
def emitAt (level : Int) (message : String) (f : ZapFields) : Record :=
  { message := message, level := level, app_name := f.app_name, version := f.version,
    log_type := f.log_type, alert := f.alert, data := f.data }

/-- Method `Info` of slog.go. -/
def SukiLogger.Info (s : SukiLogger) (message : String) (args : List Arg) : Record :=
  emitAt LevelInfo message (s.appLogBuilder args)

/-- Method `Debug` of slog.go. -/
def SukiLogger.Debug (s : SukiLogger) (message : String) (args : List Arg) : Record :=
  emitAt LevelDebug message (s.appLogBuilder args)

/-- Method `Error` of slog.go. -/
def SukiLogger.Error (s : SukiLogger) (message : String) (args : List Arg) : Record :=
  emitAt LevelError message (s.appLogBuilder args)

/-- Method `Warn` of slog.go. -/
def SukiLogger.Warn (s : SukiLogger) (message : String) (args : List Arg) : Record :=
  emitAt LevelWarn message (s.appLogBuilder args)

/-- Method `Panic` of slog.go. -/
def SukiLogger.Panic (s : SukiLogger) (message : String) (args : List Arg) : Record :=
  emitAt LevelPanic message (s.appLogBuilder args)

/-- Method `Fatal` of slog.go. -/
def SukiLogger.Fatal (s : SukiLogger) (message : String) (args : List Arg) : Record :=
  emitAt LevelFatal message (s.appLogBuilder args)

/-- Method `RequestHTTP` of slog.go: scans the variadic args, applies the
body-size truncation to the request and response bodies independently when
`MaxBodySize > 0`, stores the two domain objects under "http_request" and
"http_response", and emits at Info severity with log_type "handler.http". -/
def SukiLogger.RequestHTTP (s : SukiLogger) (message : String)
    (request : HTTPRequestInfo) (response : HTTPResponseInfo) (args : List Arg) : Record :=
  let st := args.foldl requestStep { data := [], alertLevel := LevelNone }
  let request1 :=
    if s.config.MaxBodySize > 0 ∧ (request.Body.length : Int) > s.config.MaxBodySize then
      { request with Body := "body is too large" }
    else request
  let response1 :=
    if s.config.MaxBodySize > 0 ∧ (response.Body.length : Int) > s.config.MaxBodySize then
      { response with Body := "body is too large" }
    else response
  { message := message, level := LevelInfo, app_name := s.config.AppName,
    version := s.config.Version, log_type := "handler.http", alert := st.alertLevel,
    data := upsert (upsert st.data "http_request" (DataValue.httpReq request1))
      "http_response" (DataValue.httpResp response1) }

/-- Method `RequestKafka` of slog.go: scans the variadic args, stores the two
domain objects under "kafka_message" and "kafka_result", and emits at Info
severity with log_type "handler.kafka". -/
def SukiLogger.RequestKafka (s : SukiLogger) (message : String)
    (kafkaMessage : KafkaMessage) (kafkaResult : KafkaResult) (args : List Arg) : Record :=
  let st := args.foldl requestStep { data := [], alertLevel := LevelNone }
  { message := message, level := LevelInfo, app_name := s.config.AppName,
    version := s.config.Version, log_type := "handler.kafka", alert := st.alertLevel,
    data := upsert (upsert st.data "kafka_message" (DataValue.kafkaMsg kafkaMessage))
      "kafka_result" (DataValue.kafkaRes kafkaResult) }

/-- Method `Event` of slog.go: scans the variadic args, stores the event
under "event", and emits at Info severity with log_type "event". -/
def SukiLogger.Event (s : SukiLogger) (message : String)
    (event : EventLog) (args : List Arg) : Record :=
  let st := args.foldl requestStep { data := [], alertLevel := LevelNone }
  { message := message, level := LevelInfo, app_name := s.config.AppName,
    version := s.config.Version, log_type := "event", alert := st.alertLevel,
    data := upsert st.data "event" (DataValue.event event) }

/-- Method `Audit` of slog.go (empty body). -/
def SukiLogger.Audit (_ : SukiLogger) : Unit :=
  ()

/-- Observable outcome of one `Configure` call: the logger state when the
call returns, the returned error (if any), and the ids of the sinks that were
synced during the call, in order.  In the source the only sync is the
`defer logger.Sync()` on the freshly built logger, which runs when `Configure`
returns, after the assignment `s.zapInstance = logger`. -/
structure ConfigureOutcome where
  logger : SukiLogger
  result : Option String
  synced : List Nat
deriving DecidableEq

/-- Method `Configure` of slog.go: `buildResult` is the outcome of
`config.Build(zap.AddCallerSkip(1))`.  On a build error the error is returned
before any assignment and before the deferred sync is registered; on success
the new sink and config are installed and the deferred sync of the new sink
runs at return. -/
def SukiLogger.Configure (s : SukiLogger) (c : Config) (buildResult : Except String Nat) :
    ConfigureOutcome :=
  match buildResult with
  | .error e => { logger := s, result := some e, synced := [] }
  | .ok newSink =>
    { logger := { config := c, zapInstance := some newSink }, result := none,
      synced := [newSink] }

/-- Function `L` of slog.go, as a function of the global `sukiLogger` value
it reads and of the outcome of `config.Build` (whose error is discarded with
`logger, _ := config.Build(...)`).  When the global is nil a fresh
`SukiLogger` is stored and returned, with a zero-value config and a sink
handle that is nil exactly when the build failed. -/
def L (global : Option SukiLogger) (buildResult : Except String Nat) : SukiLogger :=
  match global with
  | some inst => inst
  | none =>
    { config := { LogLevel := 0, AppName := "", Version := "", MaxBodySize := 0 },
      zapInstance :=
        match buildResult with
        | .ok sink => some sink
        | .error _ => none }

/-- Global state of the interleaving model of `L`: the `sukiLogger` global
variable (id of the stored instance, `none` = nil), the number of sinks that
`config.Build` has constructed, and the next fresh id. -/
structure LGlobal where
  sukiLogger : Option Nat
  constructions : Nat
  nextId : Nat
deriving DecidableEq

/-- One goroutine executing `L`: `pc = 0` before the `sukiLogger == nil`
check, `pc = 1` about to build a sink and assign the global, `pc = 2` about to
read the global for `return sukiLogger`, `pc = 3` done with return value
`ret`. -/
structure LThread where
  pc : Nat
  ret : Option Nat
deriving DecidableEq

/-- One atomic step of a goroutine running `L`: the nil check, the
build-and-assign (counted as one sink construction), and the final read of
the global that the function returns. -/
def stepThread (g : LGlobal) (t : LThread) : LGlobal × LThread :=
  if t.pc = 0 then
    if g.sukiLogger = none then (g, { t with pc := 1 }) else (g, { t with pc := 2 })
  else if t.pc = 1 then
    ({ sukiLogger := some g.nextId, constructions := g.constructions + 1,
       nextId := g.nextId + 1 },
     { t with pc := 2 })
  else if t.pc = 2 then
    (g, { pc := 3, ret := g.sukiLogger })
  else (g, t)

/-- State of two goroutines concurrently calling `L` on first access. -/
structure LRun where
  g : LGlobal
  t0 : LThread
  t1 : LThread
deriving DecidableEq

/-- Runs one scheduled step: `false` steps thread 0, `true` steps thread 1. -/
def runStep (st : LRun) (who : Bool) : LRun :=
  if who then
    let p := stepThread st.g st.t1
    { st with g := p.1, t1 := p.2 }
  else
    let p := stepThread st.g st.t0
    { st with g := p.1, t0 := p.2 }

/-- Runs two goroutines calling `L` from the initial state (global nil, no
sink constructed yet) under the given schedule. -/
def runL (sched : List Bool) : LRun :=
  sched.foldl runStep
    { g := { sukiLogger := none, constructions := 0, nextId := 0 },
      t0 := { pc := 0, ret := none }, t1 := { pc := 0, ret := none } }

/-- Function `NewProductionConfig` of slog.go. -/
def NewProductionConfig : Config :=
  { LogLevel := LevelInfo, AppName := "application", Version := "1.0.0",
    MaxBodySize := 1048576 }

/-- Extracts the alert level carried by an arg, when it is a `LogOption`. -/
def argAlert : Arg → Option Int
  | .option o => some o.Alert
  | _ => none

/-- Spec-side definition, following the spec's words: the Alert value of the
last `LogOption` in call-site order, or `LevelNone` when no `LogOption` is
present.  It is compared with the alert field computed by the source's scan
loops. -/
def lastAlertSpec (args : List Arg) : Int :=
  (args.filterMap argAlert).getLastD LevelNone

/-- Looking up the key just written by `upsert` yields the written value. -/
theorem lookupKey_upsert_self {β : Type} (m : List (String × β)) (k : String) (v : β) :
    lookupKey (upsert m k v) k = some v := by
  show (if k = k then some v else lookupKey (eraseKey m k) k) = some v
  rw [if_pos rfl]

/-- Erasing one key leaves lookups of any other key unchanged. -/
theorem lookupKey_eraseKey {β : Type} (m : List (String × β)) (k k2 : String) (h : k2 ≠ k) :
    lookupKey (eraseKey m k) k2 = lookupKey m k2 := by
  induction m with
  | nil => rfl
  | cons p rest ih =>
    have hkk : ¬ k = k2 := fun hc => h hc.symm
    by_cases hp : p.1 = k
    · have hne : ¬ p.1 = k2 := by rw [hp]; exact fun hc => h hc.symm
      simp [eraseKey, lookupKey, hp, hne, ih, hkk]
    · by_cases hq : p.1 = k2
      · simp [eraseKey, lookupKey, hp, hq, h]
      · simp [eraseKey, lookupKey, hp, hq, ih]

/-- Writing one key with `upsert` leaves lookups of any other key unchanged. -/
theorem lookupKey_upsert_ne {β : Type} (m : List (String × β)) (k k2 : String) (v : β)
    (h : k2 ≠ k) :
    lookupKey (upsert m k v) k2 = lookupKey m k2 := by
  show (if k = k2 then some v else lookupKey (eraseKey m k) k2) = lookupKey m k2
  rw [if_neg (fun hc => h hc.symm), lookupKey_eraseKey m k k2 h]

/-- The alert level computed by the scan loop of `appLogBuilder` is the alert
of the last `LogOption` in the list, or the initial alert level when no
`LogOption` is present. -/
theorem foldl_composeStep_alertLevel (args : List Arg) (st : ComposeState) :
    (args.foldl composeStep st).alertLevel = (args.filterMap argAlert).getLastD st.alertLevel := by
  induction args generalizing st with
  | nil => rfl
  | cons a rest ih =>
    cases a with
    | tracing t => simpa [composeStep, argAlert] using ih _
    | field f => simpa [composeStep, argAlert] using ih _
    | option o =>
      simp only [List.foldl_cons, List.filterMap_cons, argAlert, composeStep,
        List.getLastD_cons]
      exact ih _
    | other => simpa [composeStep, argAlert] using ih _

/-- The alert level computed by the scan loop shared by `RequestHTTP`,
`RequestKafka` and `Event` is the alert of the last `LogOption` in the list,
or the initial alert level when no `LogOption` is present. -/
theorem foldl_requestStep_alertLevel (args : List Arg) (st : ReqState) :
    (args.foldl requestStep st).alertLevel = (args.filterMap argAlert).getLastD st.alertLevel := by
  induction args generalizing st with
  | nil => rfl
  | cons a rest ih =>
    cases a with
    | tracing t => simpa [requestStep, argAlert] using ih _
    | field f => simpa [requestStep, argAlert] using ih _
    | option o =>
      simp only [List.foldl_cons, List.filterMap_cons, argAlert, requestStep,
        List.getLastD_cons]
      exact ih _
    | other => simpa [requestStep, argAlert] using ih _

/-- Every tracing value stored by the scan loop of `RequestHTTP`,
`RequestKafka` and `Event` has an empty RequestID, provided the initial state
already satisfies this. -/
theorem foldl_requestStep_tracing (args : List Arg) (st : ReqState)
    (h : ∀ tr : TraceInfo, lookupKey st.data "tracing" = some (DataValue.trace tr) →
      tr.RequestID = "") :
    ∀ tr : TraceInfo,
      lookupKey (args.foldl requestStep st).data "tracing" = some (DataValue.trace tr) →
      tr.RequestID = "" := by
  induction args generalizing st with
  | nil => exact h
  | cons a rest ih =>
    simp only [List.foldl_cons]
    cases a with
    | tracing t =>
      refine ih _ (fun tr htr => ?_)
      have hd : (requestStep st (Arg.tracing t)).data
          = upsert st.data "tracing" (DataValue.trace ⟨t.TraceID, t.SpanID, ""⟩) := rfl
      rw [hd, lookupKey_upsert_self] at htr
      have h1 : DataValue.trace ⟨t.TraceID, t.SpanID, ""⟩ = DataValue.trace tr :=
        Option.some.inj htr
      have h2 : TraceInfo.mk t.TraceID t.SpanID "" = tr := by injection h1
      rw [← h2]
    | field f => exact ih _ h
    | option o => exact ih _ h
    | other => exact ih _ h

/-- Every tracing value stored by the scan loop of `appLogBuilder` is one of
the `TraceInfo` arguments, stored verbatim. -/
theorem foldl_composeStep_tracing_mem (args : List Arg) (st : ComposeState) (tr : TraceInfo) :
    lookupKey (args.foldl composeStep st).data "tracing" = some (DataValue.trace tr) →
    Arg.tracing tr ∈ args ∨ lookupKey st.data "tracing" = some (DataValue.trace tr) := by
  induction args generalizing st with
  | nil => exact fun h => Or.inr h
  | cons a rest ih =>
    intro h
    simp only [List.foldl_cons] at h
    rcases ih _ h with hm | hst
    · exact Or.inl (List.mem_cons_of_mem _ hm)
    · cases a with
      | tracing t =>
        have hd : (composeStep st (Arg.tracing t)).data
            = upsert st.data "tracing" (DataValue.trace t) := rfl
        rw [hd, lookupKey_upsert_self] at hst
        have h1 : DataValue.trace t = DataValue.trace tr := Option.some.inj hst
        have h2 : t = tr := by injection h1
        subst h2
        exact Or.inl (List.mem_cons_self _ _)
      | field f => exact Or.inr hst
      | option o => exact Or.inr hst
      | other => exact Or.inr hst

/-- Unfolding lemma for the data payload built by `RequestHTTP`. -/
theorem requestHTTP_data (s : SukiLogger) (message : String)
    (request : HTTPRequestInfo) (response : HTTPResponseInfo) (args : List Arg) :
    (s.RequestHTTP message request response args).data
      = upsert (upsert ((args.foldl requestStep { data := [], alertLevel := LevelNone }).data)
          "http_request"
          (DataValue.httpReq
            (if s.config.MaxBodySize > 0 ∧ (request.Body.length : Int) > s.config.MaxBodySize then
              { request with Body := "body is too large" }
            else request)))
        "http_response"
        (DataValue.httpResp
          (if s.config.MaxBodySize > 0 ∧ (response.Body.length : Int) > s.config.MaxBodySize then
            { response with Body := "body is too large" }
          else response)) := rfl

/-- Unfolding lemma for the data payload built by `RequestKafka`. -/
theorem requestKafka_data (s : SukiLogger) (message : String)
    (kafkaMessage : KafkaMessage) (kafkaResult : KafkaResult) (args : List Arg) :
    (s.RequestKafka message kafkaMessage kafkaResult args).data
      = upsert (upsert ((args.foldl requestStep { data := [], alertLevel := LevelNone }).data)
          "kafka_message" (DataValue.kafkaMsg kafkaMessage))
        "kafka_result" (DataValue.kafkaRes kafkaResult) := rfl

/-- Unfolding lemma for the data payload built by `Event`. -/
theorem event_data (s : SukiLogger) (message : String) (event : EventLog) (args : List Arg) :
    (s.Event message event args).data
      = upsert ((args.foldl requestStep { data := [], alertLevel := LevelNone }).data)
          "event" (DataValue.event event) := rfl

/-- Unfolding lemma for the data payload built by `appLogBuilder`. -/
theorem appLogBuilder_data (s : SukiLogger) (args : List Arg) :
    (s.appLogBuilder args).data
      = (if ((args.foldl composeStep
            { data := [], appData := [], alertLevel := LevelNone }).appData).length > 0 then
          upsert ((args.foldl composeStep
              { data := [], appData := [], alertLevel := LevelNone }).data)
            (if s.config.AppName.length ≤ 0 then "payload" else s.config.AppName)
            (DataValue.table ((args.foldl composeStep
              { data := [], appData := [], alertLevel := LevelNone }).appData))
        else ((args.foldl composeStep
            { data := [], appData := [], alertLevel := LevelNone }).data)) := rfl

/-- Claim C1 (counterexample): `appLogBuilder`, used by the generic leveled
methods Info/Debug/Warn/Error/Panic/Fatal, stores the `TraceInfo` argument
verbatim, so the supplied RequestID "r" appears in the emitted "tracing"
sub-object, contrary to the claim. -/
theorem C1_counterexample :
    lookupKey ((SukiLogger.mk NewProductionConfig (some 0)).appLogBuilder
      [Arg.tracing ⟨"t", "s", "r"⟩]).data "tracing"
      = some (DataValue.trace ⟨"t", "s", "r"⟩) ∧ ("r" : String) ≠ "" :=
  ⟨by decide, by decide⟩

/-- Claim C1 (amended): in `RequestHTTP`, `RequestKafka` and `Event` the
stored "tracing" value always has an empty RequestID (only TraceID and SpanID
are propagated), while `appLogBuilder` — used by the generic leveled methods —
stores the `TraceInfo` argument verbatim, so a RequestID supplied there does
appear in the emitted record. -/
theorem C1_amended_thm (s : SukiLogger) (message : String)
    (request : HTTPRequestInfo) (response : HTTPResponseInfo)
    (kafkaMessage : KafkaMessage) (kafkaResult : KafkaResult)
    (event : EventLog) (args : List Arg) :
    (∀ tr : TraceInfo,
      lookupKey (s.RequestHTTP message request response args).data "tracing"
        = some (DataValue.trace tr) → tr.RequestID = "") ∧
    (∀ tr : TraceInfo,
      lookupKey (s.RequestKafka message kafkaMessage kafkaResult args).data "tracing"
        = some (DataValue.trace tr) → tr.RequestID = "") ∧
    (∀ tr : TraceInfo,
      lookupKey (s.Event message event args).data "tracing"
        = some (DataValue.trace tr) → tr.RequestID = "") ∧
    (∀ tr : TraceInfo,
      lookupKey (s.appLogBuilder args).data "tracing" = some (DataValue.trace tr) →
        Arg.tracing tr ∈ args) := by
  refine ⟨?_, ?_, ?_, ?_⟩
  · intro tr htr
    rw [requestHTTP_data, lookupKey_upsert_ne _ _ _ _ (by decide),
      lookupKey_upsert_ne _ _ _ _ (by decide)] at htr
    exact foldl_requestStep_tracing args _ (fun tr2 h2 => by simp [lookupKey] at h2) tr htr
  · intro tr htr
    rw [requestKafka_data, lookupKey_upsert_ne _ _ _ _ (by decide),
      lookupKey_upsert_ne _ _ _ _ (by decide)] at htr
    exact foldl_requestStep_tracing args _ (fun tr2 h2 => by simp [lookupKey] at h2) tr htr
  · intro tr htr
    rw [event_data, lookupKey_upsert_ne _ _ _ _ (by decide)] at htr
    exact foldl_requestStep_tracing args _ (fun tr2 h2 => by simp [lookupKey] at h2) tr htr
  · intro tr htr
    rw [appLogBuilder_data] at htr
    by_cases hlen : ((args.foldl composeStep
        { data := [], appData := [], alertLevel := LevelNone }).appData).length > 0
    · rw [if_pos hlen] at htr
      by_cases hk : (if s.config.AppName.length ≤ 0 then "payload" else s.config.AppName)
          = "tracing"
      · rw [hk, lookupKey_upsert_self] at htr
        simp at htr
      · rw [lookupKey_upsert_ne _ _ _ _ (fun hc => hk hc.symm)] at htr
        rcases foldl_composeStep_tracing_mem args _ tr htr with hm | hst
        · exact hm
        · nomatch hst
    · rw [if_neg hlen] at htr
      rcases foldl_composeStep_tracing_mem args _ tr htr with hm | hst
      · exact hm
      · nomatch hst

/-- Claim C1 (witness): the amended theorem applied at a concrete call with a
TraceInfo carrying RequestID "r". -/
theorem C1_amended_witness :
    (TraceInfo.mk "t" "s" "").RequestID = "" ∧
    Arg.tracing ⟨"t", "s", "r"⟩ ∈ [Arg.tracing ⟨"t", "s", "r"⟩] := by
  have h := C1_amended_thm (SukiLogger.mk NewProductionConfig (some 0)) "m"
    ⟨"GET", "/", "ip", some [], some [], some [], "b"⟩ ⟨200, 1, "ok", ⟨"", ""⟩⟩
    ⟨"topic", 0, 0, some [], "k", "p", 0⟩ ⟨1, ⟨"", ""⟩⟩
    ⟨"e", ActionCreate, ResultSuccess, "ref", "d"⟩
    [Arg.tracing ⟨"t", "s", "r"⟩]
  exact ⟨h.1 ⟨"t", "s", ""⟩ (by decide), h.2.2.2 ⟨"t", "s", "r"⟩ (by decide)⟩

/-- Claim C2 (counterexample): a `Configure` call on a logger holding sink 7
that successfully builds sink 8 replaces the sink, yet the only sync performed
is of the new sink 8 — the previously held sink 7 is never synced. -/
theorem C2_counterexample :
    ((SukiLogger.mk NewProductionConfig (some 7)).Configure NewProductionConfig
      (Except.ok 8)).logger.zapInstance = some 8 ∧
    ((SukiLogger.mk NewProductionConfig (some 7)).Configure NewProductionConfig
      (Except.ok 8)).synced = [8] ∧
    (7 : Nat) ∉ ((SukiLogger.mk NewProductionConfig (some 7)).Configure NewProductionConfig
      (Except.ok 8)).synced :=
  ⟨rfl, rfl, by decide⟩

/-- Claim C2 (amended): when the build fails `Configure` returns the
construction error and makes no replacement and no sync; when the build
succeeds it installs the new config and sink, returns no error, and the only
sync performed is of the newly built sink (at return, after the replacement) —
the previously held sink is discarded without being synced. -/
theorem C2_amended_thm (s : SukiLogger) (c : Config) (e : String) (n : Nat) :
    s.Configure c (Except.error e) = { logger := s, result := some e, synced := [] } ∧
    s.Configure c (Except.ok n)
      = { logger := { config := c, zapInstance := some n }, result := none, synced := [n] } :=
  ⟨rfl, rfl⟩

/-- Claim C3: `WithError` with exactly one variadic value uses it as the
stack trace; with two or more it uses the second (index 1) and silently
discards the first; with zero the stack trace is empty; Name always equals
the given name. -/
theorem C3_thm (name a b : String) (rest : List String) :
    (WithError name []).StackTrace = "" ∧
    (WithError name [a]).StackTrace = a ∧
    (WithError name (a :: b :: rest)).StackTrace = b ∧
    ∀ st : List String, (WithError name st).Name = name := by
  refine ⟨rfl, ?_, ?_, fun st => rfl⟩
  · simp [WithError]
  · have h1 : ¬ (a :: b :: rest).length = 1 := by simp
    have h2 : (a :: b :: rest).length > 1 := by simp
    simp [WithError, h1, h2]

/-- Claim C4 (race): the unguarded nil check in `L` admits an interleaving of
two concurrent first-access calls in which both goroutines pass the check,
two backend sinks are constructed, and the two calls return different
instances — first-access initialization is neither idempotent nor race-free. -/
theorem C4_race_thm :
    (runL [false, true, true, true, false, false]).g.constructions = 2 ∧
    (runL [false, true, true, true, false, false]).t0.ret = some 1 ∧
    (runL [false, true, true, true, false, false]).t1.ret = some 0 ∧
    (runL [false, true, true, true, false, false]).t0.ret
      ≠ (runL [false, true, true, true, false, false]).t1.ret :=
  ⟨by decide, by decide, by decide, by decide⟩

/-- Claim C5: for `appLogBuilder` and the three specialized emission methods
the emitted alert field equals the Alert value of the last `LogOption` among
the variadic args (in call-site order), and `LevelNone` = 0 when no
`LogOption` is present, as captured by `lastAlertSpec`. -/
theorem C5_thm (s : SukiLogger) (message : String)
    (request : HTTPRequestInfo) (response : HTTPResponseInfo)
    (kafkaMessage : KafkaMessage) (kafkaResult : KafkaResult)
    (event : EventLog) (args : List Arg) :
    (s.appLogBuilder args).alert = lastAlertSpec args ∧
    (s.RequestHTTP message request response args).alert = lastAlertSpec args ∧
    (s.RequestKafka message kafkaMessage kafkaResult args).alert = lastAlertSpec args ∧
    (s.Event message event args).alert = lastAlertSpec args :=
  ⟨foldl_composeStep_alertLevel args _, foldl_requestStep_alertLevel args _,
    foldl_requestStep_alertLevel args _, foldl_requestStep_alertLevel args _⟩

/-- Claim C6: in `RequestHTTP`, when `MaxBodySize > 0` a request or response
body longer than `MaxBodySize` is replaced by the sentinel "body is too
large", independently for each body; otherwise (including whenever
`MaxBodySize ≤ 0`) the original body is emitted verbatim. -/
theorem C6_thm (s : SukiLogger) (message : String)
    (request : HTTPRequestInfo) (response : HTTPResponseInfo) (args : List Arg) :
    (s.config.MaxBodySize > 0 → (request.Body.length : Int) > s.config.MaxBodySize →
      lookupKey (s.RequestHTTP message request response args).data "http_request"
        = some (DataValue.httpReq { request with Body := "body is too large" })) ∧
    (s.config.MaxBodySize > 0 → (request.Body.length : Int) ≤ s.config.MaxBodySize →
      lookupKey (s.RequestHTTP message request response args).data "http_request"
        = some (DataValue.httpReq request)) ∧
    (s.config.MaxBodySize > 0 → (response.Body.length : Int) > s.config.MaxBodySize →
      lookupKey (s.RequestHTTP message request response args).data "http_response"
        = some (DataValue.httpResp { response with Body := "body is too large" })) ∧
    (s.config.MaxBodySize > 0 → (response.Body.length : Int) ≤ s.config.MaxBodySize →
      lookupKey (s.RequestHTTP message request response args).data "http_response"
        = some (DataValue.httpResp response)) ∧
    (s.config.MaxBodySize ≤ 0 →
      lookupKey (s.RequestHTTP message request response args).data "http_request"
        = some (DataValue.httpReq request) ∧
      lookupKey (s.RequestHTTP message request response args).data "http_response"
        = some (DataValue.httpResp response)) := by
  refine ⟨?_, ?_, ?_, ?_, ?_⟩
  · intro h1 h2
    rw [requestHTTP_data, lookupKey_upsert_ne _ _ _ _ (by decide), lookupKey_upsert_self,
      if_pos ⟨h1, h2⟩]
  · intro h1 h2
    rw [requestHTTP_data, lookupKey_upsert_ne _ _ _ _ (by decide), lookupKey_upsert_self,
      if_neg (fun hc => absurd hc.2 (not_lt.mpr h2))]
  · intro h1 h2
    rw [requestHTTP_data, lookupKey_upsert_self, if_pos ⟨h1, h2⟩]
  · intro h1 h2
    rw [requestHTTP_data, lookupKey_upsert_self,
      if_neg (fun hc => absurd hc.2 (not_lt.mpr h2))]
  · intro h0
    constructor
    · rw [requestHTTP_data, lookupKey_upsert_ne _ _ _ _ (by decide), lookupKey_upsert_self,
        if_neg (fun hc => absurd hc.1 (not_lt.mpr h0))]
    · rw [requestHTTP_data, lookupKey_upsert_self,
        if_neg (fun hc => absurd hc.1 (not_lt.mpr h0))]

/-- Claim C6 (witness): with MaxBodySize = 5 a six-byte request body is
replaced by the sentinel while the two-byte response body is kept verbatim. -/
theorem C6_witness :
    lookupKey ((SukiLogger.mk ⟨0, "app", "1", 5⟩ (some 0)).RequestHTTP "m"
      ⟨"GET", "/", "ip", some [], some [], some [], "abcdef"⟩
      ⟨200, 1, "ok", ⟨"", ""⟩⟩ []).data "http_request"
      = some (DataValue.httpReq
          ⟨"GET", "/", "ip", some [], some [], some [], "body is too large"⟩) ∧
    lookupKey ((SukiLogger.mk ⟨0, "app", "1", 5⟩ (some 0)).RequestHTTP "m"
      ⟨"GET", "/", "ip", some [], some [], some [], "abcdef"⟩
      ⟨200, 1, "ok", ⟨"", ""⟩⟩ []).data "http_response"
      = some (DataValue.httpResp ⟨200, 1, "ok", ⟨"", ""⟩⟩) := by
  have h := C6_thm (SukiLogger.mk ⟨0, "app", "1", 5⟩ (some 0)) "m"
    ⟨"GET", "/", "ip", some [], some [], some [], "abcdef"⟩ ⟨200, 1, "ok", ⟨"", ""⟩⟩ []
  exact ⟨h.1 (by decide) (by decide), h.2.2.2.1 (by decide) (by decide)⟩

/-- Claim C7: `WithEvent` always returns a value; nil data gives an empty
Data string, string data is used verbatim, other data gives its JSON
serialization on success and the empty string when serialization fails (the
failure is swallowed). -/
theorem C7_thm (entity : String) (action : EventAction) (result : EventResult)
    (refID str j : String) :
    (WithEvent entity action result EventData.nilData refID).Data = "" ∧
    (WithEvent entity action result (EventData.strData str) refID).Data = str ∧
    (WithEvent entity action result (EventData.otherData (some j)) refID).Data = j ∧
    (WithEvent entity action result (EventData.otherData none) refID).Data = "" ∧
    (WithEvent entity action result EventData.nilData refID).Entity = entity :=
  ⟨rfl, rfl, rfl, rfl, rfl⟩

/-- Claim C8: `RequestHTTP`, `RequestKafka` and `Event` always emit with
log_type exactly "handler.http", "handler.kafka" and "event" respectively,
and always at Info severity, regardless of the supplied context. -/
theorem C8_thm (s : SukiLogger) (message : String)
    (request : HTTPRequestInfo) (response : HTTPResponseInfo)
    (kafkaMessage : KafkaMessage) (kafkaResult : KafkaResult)
    (event : EventLog) (args : List Arg) :
    (s.RequestHTTP message request response args).log_type = "handler.http" ∧
    (s.RequestHTTP message request response args).level = LevelInfo ∧
    (s.RequestKafka message kafkaMessage kafkaResult args).log_type = "handler.kafka" ∧
    (s.RequestKafka message kafkaMessage kafkaResult args).level = LevelInfo ∧
    (s.Event message event args).log_type = "event" ∧
    (s.Event message event args).level = LevelInfo :=
  ⟨rfl, rfl, rfl, rfl, rfl, rfl⟩

/-- Claim C9: for every combination of map arguments, `WithHTTPRequest` and
`WithKafkaMessage` normalize each map independently of the others: a nil map
(`none`) yields an empty non-nil map (`some []`), and a non-nil map
(`some m`) is passed through unchanged (`some m`); `Option.getD` packages
exactly these two cases, and the result field is always non-nil (`some`). -/
theorem C9_thm (method p ip body : String)
    (headers params query kheaders : Option (List (String × String)))
    (topic : String) (partition offset : Int) (key payload : String) (ts : Int) :
    (WithHTTPRequest method p ip headers params query body).Headers
      = some (headers.getD []) ∧
    (WithHTTPRequest method p ip headers params query body).Params
      = some (params.getD []) ∧
    (WithHTTPRequest method p ip headers params query body).Query
      = some (query.getD []) ∧
    (WithKafkaMessage topic partition offset kheaders key payload ts).Headers
      = some (kheaders.getD []) := by
  refine ⟨?_, ?_, ?_, ?_⟩
  · cases headers <;> rfl
  · cases params <;> rfl
  · cases query <;> rfl
  · cases kheaders <;> rfl

/-- Claim C10: on first access with the global instance absent, `L` discards
any build error and always stores and returns a `SukiLogger` (with zero-value
config) whose sink handle is nil exactly when the build failed; when the
global is present `L` just returns it. -/
theorem C10_thm (e : String) (n : Nat) (inst : SukiLogger) :
    L none (Except.error e) = SukiLogger.mk ⟨0, "", "", 0⟩ none ∧
    L none (Except.ok n) = SukiLogger.mk ⟨0, "", "", 0⟩ (some n) ∧
    L (some inst) (Except.error e) = inst :=
  ⟨rfl, rfl, rfl⟩

end Slog
